import Mathlib

/-!
Shallow embedding of the scrapy-selenium middleware
(src/scrapy_selenium/middlewares.py) and of the augmented request type it
consumes.  Python driver interactions are modelled as explicit state passing
over a `DriverState` together with an effect trace; the external browser
behaviour (which page a navigation lands on, what it renders, what a
screenshot contains) is an abstract `World` of functions.
-/

namespace ScrapySelenium

/-- A Python object as it can appear in a settings value: `None`, a bool, a
string, an int, or some other object.  Needed because the source performs the
identity test `driver_use_wire is True`, which distinguishes the boolean
`True` from every other truthy value. -/
inductive PyObj where
  | none
  | bool (b : Bool)
  | str (s : String)
  | int (n : Int)
  | other
deriving DecidableEq, Repr

/-- Python truthiness of an optional string (`None` and the empty string are
falsy). -/
def pyTruthyStr : Option String → Bool
  | Option.none => false
  | Option.some s => !s.isEmpty

/-- Python truthiness of an optional dict, modelled as an association list
(`None` and the empty dict are falsy). -/
def pyTruthyDict : Option (List (String × String)) → Bool
  | Option.none => false
  | Option.some l => !l.isEmpty

/-- Python str.startswith over the underlying character lists. -/
def charsStartWith : List Char → List Char → Bool
  | _, [] => true
  | [], _ :: _ => false
  | c :: cs, p :: ps => (c = p) && charsStartWith cs ps

/-- Python str.startswith. -/
def pyStartsWith (s t : String) : Bool :=
  charsStartWith s.data t.data

/-- Python str.lower (ASCII case map suffices for the arguments involved). -/
def pyLower (s : String) : String :=
  String.mk (s.data.map Char.toLower)

/-- The UTF-8 byte sequence of one unicode scalar value. -/
def utf8Bytes (c : Char) : List Nat :=
  let n := c.toNat
  if n < 128 then [n]
  else if n < 2048 then
    [192 ||| (n >>> 6), 128 ||| (n &&& 63)]
  else if n < 65536 then
    [224 ||| (n >>> 12), 128 ||| ((n >>> 6) &&& 63), 128 ||| (n &&& 63)]
  else
    [240 ||| (n >>> 18), 128 ||| ((n >>> 12) &&& 63), 128 ||| ((n >>> 6) &&& 63),
      128 ||| (n &&& 63)]

/-- Request metadata dict; the middleware may write a screenshot blob and the
driver handle into it. -/
structure Meta where
  screenshot : Option (List Nat)
  driver : Bool
deriving Repr

/-- Modelled from the spec: the augmented request type (`SeleniumRequest`,
declared in `scrapy_selenium/request.py`, which is not among the provided
source files).  The spec describes it as the standard crawl request extended
with optional fields: explicit cookies, a wait condition, a wait timeout, a
screenshot flag, and a script to execute post-load.  The wait condition is a
predicate polled over time, modelled here as a function of the poll instant. -/
structure SeleniumRequest where
  url : String
  cookies : List (String × String)
  wait_time : Nat
  wait_until : Option (Nat → Bool)
  screenshot : Bool
  script : Option String
  meta : Meta

/-- A request reaching the middleware: either a plain (non-Selenium) request,
for which `isinstance(request, SeleniumRequest)` is false, or a
`SeleniumRequest`. -/
inductive Request where
  | plain (url : String) (meta : Meta)
  | selenium (r : SeleniumRequest)

/-- The external browser behaviour: where a navigation to a URL resolves, the
page source rendered there, and the screenshot bytes captured there. -/
structure World where
  resolve : String → String
  render : String → String
  shot : String → List Nat

/-- The state of the single owned webdriver session. -/
structure DriverState where
  alive : Bool
  currentUrl : String
  pageSource : String
  cookies : List (String × String)
deriving DecidableEq, Repr

/-- One observable interaction with the browser session. -/
inductive Effect where
  | get (url : String)
  | addCookie (name value : String)
  | waitUntil
  | takeScreenshot
  | execScript (s : String)
  | readPageSource
  | readCurrentUrl
  | quit
deriving DecidableEq, Repr

/-- Errors a `process_request` call can propagate: a wait-condition timeout
(`TimeoutException`) or a command issued on a closed session. -/
inductive SelError where
  | timeout
  | sessionClosed
deriving DecidableEq, Repr

/-- UTF-8 encoding of a string, as `str.encode` produces. -/
def strEncode (s : String) : List Nat :=
  s.data.foldr (fun c acc => utf8Bytes c ++ acc) []

/-- The `HtmlResponse` the middleware synthesizes. -/
structure HtmlResponse where
  url : String
  body : List Nat
  encoding : String
  request : SeleniumRequest

/-- One step of the cookie-injection loop: `driver.add_cookie` appends the
name/value pair to the session and logs the effect. -/
def addCookieStep (p : DriverState × List Effect) (c : String × String) :
    DriverState × List Effect :=
  ({ p.1 with cookies := p.1.cookies ++ [c] }, p.2 ++ [Effect.addCookie c.1 c.2])

/-- The cookie loop of `process_request`, folding `add_cookie` over the
request's cookies. -/
def addCookiesLoop (cs : List (String × String)) (p : DriverState × List Effect) :
    DriverState × List Effect :=
  cs.foldl addCookieStep p

/-- WebDriverWait(driver, wait_time).until(cond): the wait succeeds exactly
when the condition becomes true at some poll instant within the timeout. -/
def webDriverWaitOk (wait_time : Nat) (cond : Nat → Bool) : Bool :=
  (List.range (wait_time + 1)).any cond

/-- SeleniumMiddleware.process_request.  A non-Selenium request is passed
through untouched with the "not handled" signal (`Option.none` response) and
no browser interaction.  A Selenium request is processed by navigating,
injecting cookies, optionally waiting / screenshotting / executing a script,
and synthesizing an `HtmlResponse` from the rendered page.  Returns the
driver state after the call, the trace of browser interactions, and either
the propagated error or the (request, response) outcome. -/
def process_request (w : World) (st : DriverState) (req : Request) :
    DriverState × List Effect × Except SelError (Request × Option HtmlResponse) :=
  match req with
  | Request.plain url meta => (st, [], Except.ok (Request.plain url meta, Option.none))
  | Request.selenium r =>
    if st.alive then
      let st1 : DriverState :=
        { st with currentUrl := w.resolve r.url, pageSource := w.render r.url }
      let acc := addCookiesLoop r.cookies (st1, [Effect.get r.url])
      let st2 := acc.1
      let waitOk : Bool :=
        match r.wait_until with
        | Option.some cond => webDriverWaitOk r.wait_time cond
        | Option.none => true
      let log3 : List Effect :=
        match r.wait_until with
        | Option.some _ => acc.2 ++ [Effect.waitUntil]
        | Option.none => acc.2
      if waitOk then
        let meta1 : Meta :=
          if r.screenshot then
            { r.meta with screenshot := Option.some (w.shot st2.currentUrl) }
          else r.meta
        let log4 : List Effect :=
          if r.screenshot then log3 ++ [Effect.takeScreenshot] else log3
        let log5 : List Effect :=
          match r.script with
          | Option.some s => if s.isEmpty then log4 else log4 ++ [Effect.execScript s]
          | Option.none => log4
        let body := strEncode st2.pageSource
        let meta2 : Meta := { meta1 with driver := true }
        let r2 : SeleniumRequest := { r with meta := meta2 }
        let resp : HtmlResponse :=
          { url := st2.currentUrl, body := body, encoding := "utf-8", request := r2 }
        (st2, log5 ++ [Effect.readPageSource, Effect.readCurrentUrl],
          Except.ok (Request.selenium r2, Option.some resp))
      else
        (st2, log3, Except.error SelError.timeout)
    else
      (st, [], Except.error SelError.sessionClosed)

/-- SeleniumMiddleware.spider_closed: quits the driver, after which the
session is no longer alive. -/
def spider_closed (st : DriverState) : DriverState × List Effect :=
  ({ st with alive := false }, [Effect.quit])

/-- The driver `Options` object built during initialization: binary location
override, the argument list, and the capability overrides. -/
structure DriverOptions where
  binary_location : Option String
  arguments : List String
  capabilities : List (String × String)
deriving DecidableEq, Repr

/-- The body of the argument loop in `__init__`: an argument whose lowercased
form starts with `user-agent` is replaced by `driver_user_agent` when that
override is truthy; otherwise the argument is kept unchanged. -/
def substituteArgument (driver_user_agent : Option String) (argument : String) :
    String :=
  if pyStartsWith (pyLower argument) "user-agent" then
    match driver_user_agent with
    | Option.some u => if u.isEmpty then argument else u
    | Option.none => argument
  else argument

/-- Which driver `__init__` instantiated: the selenium-wire driver or the
standard driver over a local executable, a remote driver over a command
executor, or none at all (neither a local path nor a remote endpoint was
given, so `self.driver` is never assigned). -/
inductive DriverSpec where
  | wire (executable_path : String)
      (seleniumwire_options : Option (List (String × String)))
  | localStd (executable_path : String)
  | remote (command_executor : String) (capabilities : DriverOptions)
  | unset
deriving DecidableEq, Repr

/-- True exactly on the selenium-wire variant. -/
def DriverSpec.isWire : DriverSpec → Bool
  | DriverSpec.wire _ _ => true
  | _ => false

/-- True exactly on the remote-command-executor variant. -/
def DriverSpec.isRemote : DriverSpec → Bool
  | DriverSpec.remote _ _ => true
  | _ => false

/-- The constructed middleware: the driver family name, the options object it
built, and the driver it instantiated. -/
structure Middleware where
  driver_name : String
  options : DriverOptions
  driver : DriverSpec
deriving DecidableEq, Repr

/-- Errors `__init__` itself can raise in this model: iterating
`driver_arguments` when it is `None` raises a `TypeError`. -/
inductive InitError where
  | typeError
deriving DecidableEq, Repr

/-- SeleniumMiddleware.__init__.  Builds the options object (binary-location
override if the path is truthy, the argument loop with the user-agent
substitution, the capability overrides if truthy), then instantiates the
driver: a local executable path takes the local branch, where the wire driver
is used exactly when `driver_use_wire is True`; otherwise a remote endpoint
takes the remote branch, which never consults the wire settings. -/
def seleniumInit (driver_name : String) (driver_executable_path : Option String)
    (browser_executable_path : Option String) (command_executor : Option String)
    (driver_arguments : Option (List String))
    (desired_capabilities_arguments : Option (List (String × String)))
    (driver_use_wire : PyObj)
    (driver_wire_options : Option (List (String × String)))
    (driver_user_agent : Option String) : Except InitError Middleware :=
  match driver_arguments with
  | Option.none => Except.error InitError.typeError
  | Option.some args =>
    let opts0 : DriverOptions :=
      { binary_location := Option.none, arguments := [], capabilities := [] }
    let opts1 : DriverOptions :=
      if pyTruthyStr browser_executable_path then
        { opts0 with binary_location := browser_executable_path }
      else opts0
    let opts2 : DriverOptions :=
      { opts1 with
        arguments :=
          args.foldl (fun acc a => acc ++ [substituteArgument driver_user_agent a]) [] }
    let opts3 : DriverOptions :=
      if pyTruthyDict desired_capabilities_arguments then
        { opts2 with capabilities := desired_capabilities_arguments.getD [] }
      else opts2
    let driver : DriverSpec :=
      match driver_executable_path with
      | Option.some p =>
        if driver_use_wire = PyObj.bool true then
          DriverSpec.wire p
            (if pyTruthyDict driver_wire_options then driver_wire_options
             else Option.none)
        else DriverSpec.localStd p
      | Option.none =>
        match command_executor with
        | Option.some ce => DriverSpec.remote ce opts3
        | Option.none => DriverSpec.unset
    Except.ok { driver_name := driver_name, options := opts3, driver := driver }

/-- The crawler settings the middleware reads, each `crawler.settings.get`
returning `None` when the key is unset.  `SELENIUM_DRIVER_USE_WIRE` may hold
an arbitrary Python object, since the source compares it with `is True`. -/
structure Settings where
  driver_name : Option String
  driver_executable_path : Option String
  browser_executable_path : Option String
  command_executor : Option String
  driver_arguments : Option (List String)
  desired_capabilities : Option (List (String × String))
  driver_use_wire : PyObj
  driver_wire_options : Option (List (String × String))
  driver_user_agent : Option String

/-- Errors construction from crawler settings can raise: `NotConfigured`
with its message, or the `TypeError` out of `__init__`. -/
inductive FCError where
  | notConfigured (msg : String)
  | typeError
deriving DecidableEq, Repr

/-- SeleniumMiddleware.from_crawler: reads the settings, raises
`NotConfigured` when the driver name is unset or when both the executable
path and the command executor are unset, and otherwise instantiates the
middleware via `__init__`. -/
def from_crawler (s : Settings) : Except FCError Middleware :=
  match s.driver_name with
  | Option.none => Except.error (FCError.notConfigured "SELENIUM_DRIVER_NAME must be set")
  | Option.some name =>
    if s.driver_executable_path = Option.none ∧ s.command_executor = Option.none then
      Except.error (FCError.notConfigured
        "Either SELENIUM_DRIVER_EXECUTABLE_PATH or SELENIUM_COMMAND_EXECUTOR must be set")
    else
      match seleniumInit name s.driver_executable_path s.browser_executable_path
          s.command_executor s.driver_arguments s.desired_capabilities
          s.driver_use_wire s.driver_wire_options s.driver_user_agent with
      | Except.ok mw => Except.ok mw
      | Except.error InitError.typeError => Except.error FCError.typeError

/-- True exactly when construction failed with the configuration error
`NotConfigured`. -/
def isNotConfigured : Except FCError Middleware → Bool
  | Except.error (FCError.notConfigured _) => true
  | _ => false

lemma addCookiesLoop_spec (cs : List (String × String)) (st : DriverState)
    (l : List Effect) :
    addCookiesLoop cs (st, l) =
      ({ st with cookies := st.cookies ++ cs },
        l ++ cs.map fun c => Effect.addCookie c.1 c.2) := by
  induction cs generalizing st l with
  | nil => simp [addCookiesLoop]
  | cons c cs ih =>
    show addCookiesLoop cs (addCookieStep (st, l) c) = _
    rw [addCookieStep, ih]
    simp

lemma process_request_state (w : World) (st : DriverState) (r : SeleniumRequest)
    (halive : st.alive = true) :
    (process_request w st (Request.selenium r)).1 =
      { st with
        currentUrl := w.resolve r.url,
        pageSource := w.render r.url,
        cookies := st.cookies ++ r.cookies } := by
  unfold process_request
  simp only [halive, if_true, addCookiesLoop_spec]
  cases hu : r.wait_until <;> simp only [hu] <;> split <;> rfl

/-- C1: for a marked request with no cookies, no wait condition, no
screenshot flag and no script, `process_request` navigates the session to the
request's URL and returns a response whose URL equals the browser's resolved
current URL, whose body is the UTF-8 encoding of the page source read at that
point, and whose declared encoding is UTF-8. -/
theorem c1_basic_marked_request_response (w : World) (st : DriverState)
    (r : SeleniumRequest) (halive : st.alive = true) (hcook : r.cookies = [])
    (hwait : r.wait_until = Option.none) (hshot : r.screenshot = false)
    (hscript : r.script = Option.none) :
    ∃ st2 r2 resp,
      process_request w st (Request.selenium r) =
        (st2, [Effect.get r.url, Effect.readPageSource, Effect.readCurrentUrl],
          Except.ok (Request.selenium r2, Option.some resp)) ∧
      st2.currentUrl = w.resolve r.url ∧
      st2.pageSource = w.render r.url ∧
      resp.url = st2.currentUrl ∧
      resp.body = strEncode st2.pageSource ∧
      resp.encoding = "utf-8" := by
  refine ⟨{ st with currentUrl := w.resolve r.url, pageSource := w.render r.url },
    { r with meta := { r.meta with driver := true } },
    { url := w.resolve r.url, body := strEncode (w.render r.url),
      encoding := "utf-8",
      request := { r with meta := { r.meta with driver := true } } },
    ?_, rfl, rfl, rfl, rfl, rfl⟩
  unfold process_request
  simp [halive, hcook, hwait, hshot, hscript, addCookiesLoop_spec]

/-- C2: a request that is not a `SeleniumRequest` is answered with the "not
handled" signal, with no browser interaction and the request unchanged. -/
theorem c2_unmarked_request_passthrough (w : World) (st : DriverState)
    (url : String) (meta : Meta) :
    process_request w st (Request.plain url meta) =
      (st, [], Except.ok (Request.plain url meta, Option.none)) :=
  rfl

/-- C3: a marked request whose wait condition never becomes true within the
wait timeout makes `process_request` propagate a timeout error instead of
returning a response. -/
theorem c3_wait_timeout_propagates (w : World) (st : DriverState)
    (r : SeleniumRequest) (cond : Nat → Bool) (halive : st.alive = true)
    (hwait : r.wait_until = Option.some cond)
    (hnever : ∀ t, t ≤ r.wait_time → cond t = false) :
    (process_request w st (Request.selenium r)).2.2 =
      Except.error SelError.timeout := by
  have hany : webDriverWaitOk r.wait_time cond = false := by
    rw [webDriverWaitOk]
    rw [List.any_eq_false]
    intro t ht
    rw [List.mem_range, Nat.lt_succ_iff] at ht
    simp [hnever t ht]
  unfold process_request
  simp [halive, hwait, addCookiesLoop_spec, hany]

/-- C5: a marked request's cookies are each injected into the session (its
cookie store grows by exactly the request's name/value pairs), and in the
interaction trace the navigation to the request URL comes before every cookie
injection. -/
theorem c5_cookies_injected_after_navigation (w : World) (st : DriverState)
    (r : SeleniumRequest) (halive : st.alive = true) :
    ((process_request w st (Request.selenium r)).1.cookies =
      st.cookies ++ r.cookies) ∧
    (∀ c ∈ r.cookies, c ∈ (process_request w st (Request.selenium r)).1.cookies) ∧
    ((Effect.get r.url :: (r.cookies.map fun c => Effect.addCookie c.1 c.2)) <+:
      (process_request w st (Request.selenium r)).2.1) := by
  have hst := process_request_state w st r halive
  refine ⟨by rw [hst], ?_, ?_⟩
  · intro c hc
    rw [hst]
    exact List.mem_append_right _ hc
  · unfold process_request
    simp only [halive, if_true, addCookiesLoop_spec]
    cases hu : r.wait_until <;> simp only [hu] <;> split <;>
      (try simp) <;>
      cases hs : r.script <;> (try split_ifs) <;>
        simp [List.cons_prefix_cons, List.append_assoc] <;>
      (try split) <;>
      simp [List.cons_prefix_cons, List.append_assoc]

/-- C8: after the spider-closed signal the driver is quit: the session is no
longer alive, the quit interaction is issued, and any subsequent attempt to
process a marked request through the session fails. -/
theorem c8_spider_closed_releases_session (w : World) (st : DriverState)
    (r : SeleniumRequest) :
    (spider_closed st).1.alive = false ∧
    (spider_closed st).2 = [Effect.quit] ∧
    process_request w (spider_closed st).1 (Request.selenium r) =
      ((spider_closed st).1, [], Except.error SelError.sessionClosed) := by
  refine ⟨rfl, rfl, ?_⟩
  unfold process_request spider_closed
  simp

/-- The argument transformation as the claim states it: an argument whose
lowercased form starts with `user-agent` is replaced by the configured
user-agent override when that override is set (truthy); otherwise the
argument is kept unchanged. -/
def claimedSubstitution (ua : Option String) (a : String) : String :=
  if pyStartsWith (pyLower a) "user-agent" && pyTruthyStr ua then ua.getD a else a

lemma foldl_append_map {α β : Type} (f : α → β) (args : List α) (l0 : List β) :
    args.foldl (fun acc a => acc ++ [f a]) l0 = l0 ++ args.map f := by
  induction args generalizing l0 with
  | nil => simp
  | cons a args ih => simp [ih]

lemma substituteArgument_eq_claimed (ua : Option String) (a : String) :
    substituteArgument ua a = claimedSubstitution ua a := by
  cases ua with
  | none => simp [substituteArgument, claimedSubstitution, pyTruthyStr]
  | some u =>
    by_cases hu : u.isEmpty <;>
      by_cases hp : pyStartsWith (pyLower a) "user-agent" <;>
        simp [substituteArgument, claimedSubstitution, pyTruthyStr, hu, hp]

lemma isNotConfigured_of_init (e : Except InitError Middleware) :
    isNotConfigured
      (match e with
        | Except.ok mw => Except.ok mw
        | Except.error InitError.typeError => Except.error FCError.typeError) =
      false := by
  cases e with
  | ok mw => rfl
  | error err => cases err; rfl

/-- C4: construction from crawler settings raises the configuration error
exactly when the driver name is unset, or both the local executable path and
the remote command executor are unset. -/
theorem c4_notconfigured_iff (s : Settings) :
    isNotConfigured (from_crawler s) = true ↔
      (s.driver_name = Option.none ∨
        (s.driver_executable_path = Option.none ∧
          s.command_executor = Option.none)) := by
  cases hn : s.driver_name with
  | none => simp [from_crawler, hn, isNotConfigured]
  | some name =>
    by_cases hc : s.driver_executable_path = Option.none ∧
        s.command_executor = Option.none
    · simp [from_crawler, hn, hc, isNotConfigured]
    · simp [from_crawler, hn, hc, isNotConfigured_of_init]

/-- C6: with no local executable path and a remote command executor set,
initialization constructs the remote driver and never consults the wire
toggle or the wire options: the outcome is identical for any two values of
those settings. -/
theorem c6_remote_branch_ignores_wire (name : String) (bep : Option String)
    (e : String) (args : List String) (dc : Option (List (String × String)))
    (w1 w2 : PyObj) (wo1 wo2 : Option (List (String × String)))
    (ua : Option String) :
    (seleniumInit name Option.none bep (Option.some e) (Option.some args) dc
        w1 wo1 ua =
      seleniumInit name Option.none bep (Option.some e) (Option.some args) dc
        w2 wo2 ua) ∧
    ∃ mw, seleniumInit name Option.none bep (Option.some e) (Option.some args)
        dc w1 wo1 ua = Except.ok mw ∧ mw.driver.isRemote = true := by
  exact ⟨rfl, ⟨_, rfl, rfl⟩⟩

/-- C7: the arguments recorded on the driver options are exactly the
configured arguments in list order, except that an argument whose lowercased
form starts with `user-agent` is replaced by the configured user-agent
override when that override is set. -/
theorem c7_user_agent_substitution (name : String) (p bep ce : Option String)
    (args : List String) (dc : Option (List (String × String))) (wi : PyObj)
    (wo : Option (List (String × String))) (ua : Option String)
    (mw : Middleware)
    (h : seleniumInit name p bep ce (Option.some args) dc wi wo ua =
      Except.ok mw) :
    mw.options.arguments = args.map (claimedSubstitution ua) := by
  simp only [seleniumInit] at h
  rw [Except.ok.injEq] at h
  subst h
  split_ifs <;> simp [foldl_append_map, substituteArgument_eq_claimed]

/-- C9: when a local executable path is supplied, initialization takes the
local branch: the command-executor setting is never consulted and the
instantiated driver is the wire or standard local driver, never the remote
one. -/
theorem c9_local_path_precedence (name p : String) (bep ce : Option String)
    (args : List String) (dc : Option (List (String × String))) (wi : PyObj)
    (wo : Option (List (String × String))) (ua : Option String) :
    (seleniumInit name (Option.some p) bep ce (Option.some args) dc wi wo ua =
      seleniumInit name (Option.some p) bep Option.none (Option.some args) dc
        wi wo ua) ∧
    ∃ mw, seleniumInit name (Option.some p) bep ce (Option.some args) dc wi
        wo ua = Except.ok mw ∧ mw.driver.isRemote = false ∧
        (mw.driver.isWire = true ∨ mw.driver = DriverSpec.localStd p) := by
  refine ⟨rfl, ⟨_, rfl, ?_, ?_⟩⟩ <;>
    by_cases hw : wi = PyObj.bool true <;>
      simp [hw, DriverSpec.isRemote, DriverSpec.isWire]

/-- C10: in the local-executable branch the wire driver is instantiated
exactly when the wire toggle is the boolean `True` (the source's identity
check `driver_use_wire is True`); any other value, including `None`, yields
the standard driver. -/
theorem c10_wire_toggle_identity_check (name p : String) (bep ce : Option String)
    (args : List String) (dc : Option (List (String × String))) (wi : PyObj)
    (wo : Option (List (String × String))) (ua : Option String)
    (mw : Middleware)
    (h : seleniumInit name (Option.some p) bep ce (Option.some args) dc wi wo
      ua = Except.ok mw) :
    mw.driver.isWire = true ↔ wi = PyObj.bool true := by
  simp only [seleniumInit] at h
  rw [Except.ok.injEq] at h
  subst h
  by_cases hw : wi = PyObj.bool true <;> simp [hw, DriverSpec.isWire]

/-- A concrete browser behaviour used to instantiate the theorems. -/
def sampleWorld : World :=
  { resolve := fun u => u ++ "#final",
    render := fun u => u ++ " body",
    shot := fun _ => [137] }

/-- A concrete live driver session. -/
def sampleState : DriverState :=
  { alive := true, currentUrl := "about:blank", pageSource := "", cookies := [] }

/-- A marked request carrying none of the optional fields. -/
def sampleBasicRequest : SeleniumRequest :=
  { url := "http://example.com", cookies := [], wait_time := 0,
    wait_until := Option.none, screenshot := false, script := Option.none,
    meta := { screenshot := Option.none, driver := false } }

/-- A wait condition that never becomes true. -/
def sampleCond : Nat → Bool := fun _ => false

/-- A marked request whose wait condition never becomes true. -/
def sampleTimeoutRequest : SeleniumRequest :=
  { url := "http://example.com", cookies := [], wait_time := 2,
    wait_until := Option.some sampleCond, screenshot := false,
    script := Option.none,
    meta := { screenshot := Option.none, driver := false } }

/-- A marked request carrying the cookies a and b. -/
def sampleCookieRequest : SeleniumRequest :=
  { url := "http://example.com", cookies := [("a", "1"), ("b", "2")],
    wait_time := 0, wait_until := Option.none, screenshot := false,
    script := Option.none,
    meta := { screenshot := Option.none, driver := false } }

/-- The middleware produced by the concrete C7 instantiation. -/
def c7mw : Middleware :=
  { driver_name := "chrome",
    options :=
      { binary_location := Option.none,
        arguments := ["user-agent=new", "--headless"],
        capabilities := [] },
    driver := DriverSpec.localStd "/usr/lib/chromedriver" }

/-- The middleware produced by the concrete C10 instantiation. -/
def c10mw : Middleware :=
  { driver_name := "firefox",
    options :=
      { binary_location := Option.none,
        arguments := [],
        capabilities := [] },
    driver := DriverSpec.wire "/usr/lib/geckodriver" Option.none }

/-- Witness for C1 at a concrete world, session and request. -/
theorem c1_basic_marked_request_response_witness :
    sampleState.alive = true ∧ sampleBasicRequest.cookies = [] ∧
    sampleBasicRequest.wait_until = Option.none ∧
    sampleBasicRequest.screenshot = false ∧
    sampleBasicRequest.script = Option.none ∧
    (∃ st2 r2 resp,
      process_request sampleWorld sampleState
          (Request.selenium sampleBasicRequest) =
        (st2, [Effect.get sampleBasicRequest.url, Effect.readPageSource,
          Effect.readCurrentUrl],
          Except.ok (Request.selenium r2, Option.some resp)) ∧
      st2.currentUrl = sampleWorld.resolve sampleBasicRequest.url ∧
      st2.pageSource = sampleWorld.render sampleBasicRequest.url ∧
      resp.url = st2.currentUrl ∧
      resp.body = strEncode st2.pageSource ∧
      resp.encoding = "utf-8") :=
  ⟨rfl, rfl, rfl, rfl, rfl,
    c1_basic_marked_request_response sampleWorld sampleState sampleBasicRequest
      rfl rfl rfl rfl rfl⟩

/-- Witness for C3 at a concrete request whose condition never holds within
its two-unit timeout. -/
theorem c3_wait_timeout_propagates_witness :
    sampleState.alive = true ∧
    sampleTimeoutRequest.wait_until = Option.some sampleCond ∧
    (∀ t, t ≤ sampleTimeoutRequest.wait_time → sampleCond t = false) ∧
    (process_request sampleWorld sampleState
        (Request.selenium sampleTimeoutRequest)).2.2 =
      Except.error SelError.timeout :=
  ⟨rfl, rfl, by decide,
    c3_wait_timeout_propagates sampleWorld sampleState sampleTimeoutRequest
      sampleCond rfl rfl (by decide)⟩

/-- Witness for C5: after processing a request carrying the cookies a=1 and
b=2, both cookies are present in the session. -/
theorem c5_cookies_injected_after_navigation_witness :
    sampleState.alive = true ∧
    (("a", "1") ∈ (process_request sampleWorld sampleState
        (Request.selenium sampleCookieRequest)).1.cookies) ∧
    (("b", "2") ∈ (process_request sampleWorld sampleState
        (Request.selenium sampleCookieRequest)).1.cookies) :=
  ⟨rfl,
    (c5_cookies_injected_after_navigation sampleWorld sampleState
        sampleCookieRequest rfl).2.1 _ (by decide),
    (c5_cookies_injected_after_navigation sampleWorld sampleState
        sampleCookieRequest rfl).2.1 _ (by decide)⟩

/-- Witness for C7: a user-agent argument is substituted, a non-matching
argument is kept, at a concrete initialization. -/
theorem c7_user_agent_substitution_witness :
    (seleniumInit "chrome" (Option.some "/usr/lib/chromedriver") Option.none
        Option.none (Option.some ["user-agent=old", "--headless"]) Option.none
        PyObj.none Option.none (Option.some "user-agent=new") =
      Except.ok c7mw) ∧
    c7mw.options.arguments =
      (["user-agent=old", "--headless"]).map
        (claimedSubstitution (Option.some "user-agent=new")) :=
  ⟨by rfl,
    c7_user_agent_substitution "chrome" (Option.some "/usr/lib/chromedriver")
      Option.none Option.none ["user-agent=old", "--headless"] Option.none
      PyObj.none Option.none (Option.some "user-agent=new") c7mw (by rfl)⟩

/-- Witness for C10: with the toggle being the boolean True the wire driver
is instantiated at a concrete initialization. -/
theorem c10_wire_toggle_identity_check_witness :
    (seleniumInit "firefox" (Option.some "/usr/lib/geckodriver") Option.none
        Option.none (Option.some []) Option.none (PyObj.bool true) Option.none
        Option.none = Except.ok c10mw) ∧
    (c10mw.driver.isWire = true ↔ PyObj.bool true = PyObj.bool true) :=
  ⟨by rfl,
    c10_wire_toggle_identity_check "firefox" "/usr/lib/geckodriver" Option.none
      Option.none [] Option.none (PyObj.bool true) Option.none Option.none
      c10mw (by rfl)⟩

end ScrapySelenium
